import Mathlib

/-!
Verification development for the gusto dynamical-core repository.

The embedding is a shallow one: pointwise field values are rationals
(`ℚ`), real-exponent thermodynamic expressions live in `ℝ`, the assembled
spatial weak forms of the finite-element substrate are opaque functions of
the state, and the single mass-matrix linear solve of each forcing
operator is a linear map on the one-degree-of-freedom model (multiplication
by a constant `minv`).  Stateful Python methods become explicit
state-passing functions; methods that can raise become `Except`-valued.
-/

namespace Gusto

/-! ## Physics processes (src/gusto/physics.py)

Pointwise model of the moisture microphysics.  Each process computes a
raw rate expression, passes it through its clipping `Interpolator`, and
performs the explicit updates `quantity ± dt * rate`.  Rate expressions
that involve transcendental operations (the thermodynamic condensation
rate, and `rain ** 0.875`) are modelled by an opaque rational argument,
since the clipping and update logic is independent of their value.
-/

/-- Pointwise values of the three moisture fields of `src/gusto/physics.py`. -/
structure Moisture where
  water_v : ℚ
  water_c : ℚ
  rain : ℚ
  deriving Repr, DecidableEq

/-- Constant `k1 = 0.001` of `Coalescence`/`Autoconversion`. -/
def k1 : ℚ := 1 / 1000

/-- Constant `k2 = 2.2` of `Coalescence`/`Collection`. -/
def k2 : ℚ := 11 / 5

/-- Constant `a = 0.001`, the autoconversion threshold. -/
def aThresh : ℚ := 1 / 1000

/-- `Condensation.lim_cond_rate` (physics.py lines 103-105):
`conditional(dot_r_cond < 0, max_value(dot_r_cond, -water_c/dt),
min_value(dot_r_cond, water_v/dt))`. -/
def lim_cond_rate (dt water_c water_v dot_r_cond : ℚ) : ℚ :=
  if dot_r_cond < 0 then max dot_r_cond (-water_c / dt)
  else min dot_r_cond (water_v / dt)

/-- `Condensation.apply` (physics.py lines 115-121), restricted to the
moisture fields: the clipped rate is computed once, then
`water_v := water_v - dt*cond_rate` and `water_c := water_c + dt*cond_rate`
(both right-hand sides read the pre-update values, as the `Interpolator`
expressions were built from them).  `dot_r_cond` is the raw thermodynamic
condensation rate (physics.py lines 83-85), opaque here; in the `weak`
variant it is the weakly-solved rate, which the clip consumes identically. -/
def condensationApply (dt dot_r_cond : ℚ) (m : Moisture) : Moisture :=
  let cond_rate := lim_cond_rate dt m.water_c m.water_v dot_r_cond
  { water_v := m.water_v - dt * cond_rate
    water_c := m.water_c + dt * cond_rate
    rain := m.rain }

/-- Raw coalescence rate (physics.py lines 203-206):
`k2 * water_c * rain ** 0.875 + k1 * (water_c - a)`.  The term
`rain ** 0.875` is passed as the argument `rain875`. -/
def coalescenceRawRate (water_c rain875 : ℚ) : ℚ :=
  k2 * water_c * rain875 + k1 * (water_c - aThresh)

/-- `Coalescence.lim_coalescence_rate` (physics.py lines 212-215):
`conditional(collection + autoconversion < 0, Constant(0.0),
min_value(collection + autoconversion, water_c/dt))`. -/
def lim_coalescence_rate (dt water_c raw : ℚ) : ℚ :=
  if raw < 0 then 0 else min raw (water_c / dt)

/-- `Coalescence.apply` (physics.py lines 221-224): clip the raw rate, then
`water_c := water_c - dt*rate`, `rain := rain + dt*rate`. -/
def coalescenceApply (dt rain875 : ℚ) (m : Moisture) : Moisture :=
  let coalescence_rate :=
    lim_coalescence_rate dt m.water_c (coalescenceRawRate m.water_c rain875)
  { water_v := m.water_v
    water_c := m.water_c - dt * coalescence_rate
    rain := m.rain + dt * coalescence_rate }

/-- Raw collection rate (physics.py line 246): `k2 * water_c * rain ** 0.875`,
with `rain ** 0.875` passed as `rain875`. -/
def collectionRate (water_c rain875 : ℚ) : ℚ :=
  k2 * water_c * rain875

/-- `Collection.limit_rate` (physics.py lines 251-253):
`conditional(collection_rate > 0, min_value(collection_rate, water_c/dt), 0.0)`.
This `Interpolator` is constructed by `Collection.__init__` but
`Collection.apply` never invokes it. -/
def collectionLimitRate (dt water_c r : ℚ) : ℚ :=
  if r > 0 then min r (water_c / dt) else 0

/-- `Collection.apply` (physics.py lines 259-262): project the raw
collection rate, then `water_c := water_c - dt*rate`,
`rain := rain + dt*rate`.  Note that `self.limit_rate.interpolate()` is
*not* called, so the raw rate is applied unclipped. -/
def collectionApply (dt rain875 : ℚ) (m : Moisture) : Moisture :=
  let collection_rate := collectionRate m.water_c rain875
  { water_v := m.water_v
    water_c := m.water_c - dt * collection_rate
    rain := m.rain + dt * collection_rate }

/-- Raw autoconversion rate (physics.py line 285): `k1 * (water_c - a)`. -/
def autoconversionRawRate (water_c : ℚ) : ℚ :=
  k1 * (water_c - aThresh)

/-- `Autoconversion.limit_rate` (physics.py lines 290-292):
`conditional(dt * rate > 0, min_value(rate, water_c/dt),
max_value(rate, -rain/dt))`. -/
def autoconversionLimitRate (dt rain water_c r : ℚ) : ℚ :=
  if dt * r > 0 then min r (water_c / dt) else max r (-rain / dt)

/-- `Autoconversion.apply` (physics.py lines 298-302): project the raw rate,
clip it with `limit_rate`, then `water_c := water_c - dt*rate`,
`rain := rain + dt*rate`. -/
def autoconversionApply (dt : ℚ) (m : Moisture) : Moisture :=
  let r := autoconversionLimitRate dt m.rain m.water_c
    (autoconversionRawRate m.water_c)
  { water_v := m.water_v
    water_c := m.water_c - dt * r
    rain := m.rain + dt * r }

/-! ## Forcing operators (src/gusto/forcing.py)

One-degree-of-freedom shallow embedding.  Each assembled spatial term of
the right-hand-side form `L` is an opaque function of the linearization
state `x0`; the mass-matrix solve `inner(w,F)*dx = L` is the linear map
`uF := minv * L`.  The composition of the terms into `L` — in particular
which scalar (`self.scaling` or `self.mu_scaling`) multiplies each term —
is transcribed from `_build_forcing_solver` of each variant.
-/

/-- Pointwise mixed state `(u, rho, theta)` of the compressible equations. -/
structure CompressibleX where
  u : ℚ
  rho : ℚ
  theta : ℚ
  deriving Repr, DecidableEq

/-- Pointwise mixed state `(u, p, b)` of the incompressible Boussinesq
equations. -/
structure IncompressibleX where
  u : ℚ
  p : ℚ
  b : ℚ
  deriving Repr, DecidableEq

/-- Pointwise mixed state `(u, D)` of the shallow-water equations. -/
structure ShallowWaterX where
  u : ℚ
  D : ℚ
  deriving Repr, DecidableEq

/-- Configuration of `CompressibleForcing._build_forcing_solver`
(forcing.py lines 52-109): the assembled scale-independent terms of the
form `L`, the option flags deciding which terms are present, and the
(inverse) mass matrix of the solve `a = inner(w,F)*dx`. -/
structure CompressibleForcing where
  /-- `cp*div(theta0*w)*pi*dx - cp*jump(w*theta0,n)*avg(pi)*dS_v`. -/
  pressureL : CompressibleX → ℚ
  /-- `state.parameters.geopotential`. -/
  geopotential : Bool
  /-- `div(w)*Phi*dx` (geopotential gravity variant). -/
  geopotentialL : CompressibleX → ℚ
  /-- `g*inner(w,state.k)*dx` (plain gravity variant). -/
  gravityL : CompressibleX → ℚ
  /-- Resolved Euler-Poincare flag of `Forcing.__init__`. -/
  euler_poincare : Bool
  /-- `0.5*div(w)*inner(u0,u0)*dx`. -/
  epL : CompressibleX → ℚ
  /-- `inner(w, cross(2*Omega, u0-u_init))*dx`, present iff `Omega` is. -/
  coriolisL : Option (CompressibleX → ℚ)
  /-- `mu*inner(w,state.k)*inner(u0,state.k)*dx`, present iff `mu` is. -/
  muL : Option (CompressibleX → ℚ)
  /-- Inverse of the velocity mass matrix (the linear solve). -/
  minv : ℚ

/-- The right-hand side `L` assembled by
`CompressibleForcing._build_forcing_solver` (forcing.py lines 79-100),
evaluated at `x0` with the current values of `self.scaling` and
`self.mu_scaling`: every term is multiplied by `scaling` except the sponge
term, which is multiplied by `mu_scaling`. -/
def CompressibleForcing.L (f : CompressibleForcing)
    (scaling muScaling : ℚ) (x0 : CompressibleX) : ℚ :=
  scaling * f.pressureL x0
  + (if f.geopotential then scaling * f.geopotentialL x0
     else -(scaling * f.gravityL x0))
  - (if f.euler_poincare then scaling * f.epL x0 else 0)
  - (match f.coriolisL with
     | some c => scaling * c x0
     | none => 0)
  - (match f.muL with
     | some s => muScaling * s x0
     | none => 0)

/-- `CompressibleForcing.apply` (forcing.py lines 111-122):
`x0 := x_nl`; `scaling := scale`; `mu_scaling := mu_alpha` when the kwarg
is passed and not None (else it keeps its previous value `muScalingPrev`);
solve for `uF`; `x_out := x_in`; `u_out += uF`. -/
def CompressibleForcing.applyF (f : CompressibleForcing)
    (muScalingPrev scaling : ℚ) (x_in x_nl : CompressibleX)
    (mu_alpha : Option ℚ) : CompressibleX :=
  let muScaling := mu_alpha.getD muScalingPrev
  let uF := f.minv * f.L scaling muScaling x_nl
  { u := x_in.u + uF, rho := x_in.rho, theta := x_in.theta }

/-- The assembled forcing increment `F(x)` of the claim, for the
compressible variant: the result of the unit-`scaling` linear solve with
no sponge contribution. -/
def CompressibleForcing.F (f : CompressibleForcing) (x : CompressibleX) : ℚ :=
  f.minv * (f.pressureL x
    + (if f.geopotential then f.geopotentialL x else -(f.gravityL x))
    - (if f.euler_poincare then f.epL x else 0)
    - (match f.coriolisL with
       | some c => c x
       | none => 0))

/-- Configuration of `IncompressibleForcing._build_forcing_solver`
(forcing.py lines 157-214). -/
structure IncompressibleForcing where
  /-- `div(w)*p0*dx`. -/
  pressureL : IncompressibleX → ℚ
  /-- `b0*inner(w,state.k)*dx`. -/
  gravityL : IncompressibleX → ℚ
  euler_poincare : Bool
  /-- `0.5*div(w)*inner(u0,u0)*dx`. -/
  epL : IncompressibleX → ℚ
  /-- `inner(w, cross(2*Omega, u0))*dx`, present iff `Omega` is. -/
  coriolisL : Option (IncompressibleX → ℚ)
  /-- `mu*inner(w,state.k)*inner(u0,state.k)*dx`, present iff `mu` is. -/
  muL : Option (IncompressibleX → ℚ)
  /-- Inverse of the velocity mass matrix. -/
  minv : ℚ
  /-- `q*div(u0)*dx` of the divergence problem. -/
  divL : IncompressibleX → ℚ
  /-- Inverse of the pressure mass matrix of the divergence solve. -/
  minvP : ℚ

/-- The right-hand side `L` assembled by
`IncompressibleForcing._build_forcing_solver` (forcing.py lines 179-192). -/
def IncompressibleForcing.L (f : IncompressibleForcing)
    (scaling muScaling : ℚ) (x0 : IncompressibleX) : ℚ :=
  scaling * f.pressureL x0
  + scaling * f.gravityL x0
  - (if f.euler_poincare then scaling * f.epL x0 else 0)
  - (match f.coriolisL with
     | some c => scaling * c x0
     | none => 0)
  - (match f.muL with
     | some s => muScaling * s x0
     | none => 0)

/-- `IncompressibleForcing.apply` (forcing.py lines 216-231): as the
compressible variant, and additionally, when the `incompressible` kwarg is
passed and true, solve the divergence problem at `x0 = x_nl` and assign
the result to the pressure component of `x_out`. -/
def IncompressibleForcing.applyF (f : IncompressibleForcing)
    (muScalingPrev scaling : ℚ) (x_in x_nl : IncompressibleX)
    (mu_alpha : Option ℚ) (incompressible : Bool) : IncompressibleX :=
  let muScaling := mu_alpha.getD muScalingPrev
  let uF := f.minv * f.L scaling muScaling x_nl
  let out : IncompressibleX := { u := x_in.u + uF, p := x_in.p, b := x_in.b }
  if incompressible then { out with p := f.minvP * f.divL x_nl } else out

/-- The assembled forcing increment `F(x)` for the incompressible variant
(unit scaling, no sponge). -/
def IncompressibleForcing.F (f : IncompressibleForcing)
    (x : IncompressibleX) : ℚ :=
  f.minv * (f.pressureL x + f.gravityL x
    - (if f.euler_poincare then f.epL x else 0)
    - (match f.coriolisL with
       | some c => c x
       | none => 0))

/-- Configuration of `ShallowWaterForcing._build_forcing_solver`
(forcing.py lines 236-268).  No sponge or Coriolis option: the Coriolis
and depth-gradient terms are always assembled, unscaled. -/
structure ShallowWaterForcing where
  /-- `(-f*inner(w,perp(u0)) + g*div(w)*D0)*dx - g*inner(jump(w,n), ...)*dS`. -/
  mainL : ShallowWaterX → ℚ
  euler_poincare : Bool
  /-- `0.5*div(w)*inner(u0,u0)*dx`. -/
  epL : ShallowWaterX → ℚ
  /-- Inverse of the velocity mass matrix. -/
  minv : ℚ

/-- The right-hand side `L` assembled by
`ShallowWaterForcing._build_forcing_solver` (forcing.py lines 258-263):
no `self.scaling` factor appears in this form. -/
def ShallowWaterForcing.L (f : ShallowWaterForcing) (x0 : ShallowWaterX) : ℚ :=
  f.mainL x0 - (if f.euler_poincare then f.epL x0 else 0)

/-- `ShallowWaterForcing.apply` (forcing.py lines 270-281): `x0 := x_nl`;
solve for `uF`; `uF *= scaling`; `x_out := x_in`; `u_out += uF`. -/
def ShallowWaterForcing.applyF (f : ShallowWaterForcing)
    (scaling : ℚ) (x_in x_nl : ShallowWaterX) : ShallowWaterX :=
  let uF := f.minv * f.L x_nl * scaling
  { u := x_in.u + uF, D := x_in.D }

/-- The assembled forcing increment `F(x)` for the shallow-water variant. -/
def ShallowWaterForcing.F (f : ShallowWaterForcing) (x : ShallowWaterX) : ℚ :=
  f.minv * f.L x

/-- A concrete compressible forcing configuration with a sponge layer
(`mu` present).  Each opaque functional mirrors the state dependence of
its assembled term: the pressure-gradient functional is proportional to
`rho0 * theta0` (as `cp*div(theta0*w)*pi(theta0,rho0)*dx` vanishes with
`theta0`), the gravity functional `g*inner(w,state.k)*dx` is constant in
`x0`, and the sponge functional `mu*inner(w,k)*inner(u0,k)*dx` is linear
in the velocity `u0` — in particular it is nonzero at a linearization
state with nonzero velocity; `minv = 1`. -/
def spongeLayerConfig : CompressibleForcing :=
  { pressureL := fun x => x.rho * x.theta
    geopotential := false
    geopotentialL := fun _ => 0
    gravityL := fun _ => 2
    euler_poincare := false
    epL := fun x => x.u * x.u
    coriolisL := none
    muL := some (fun x => x.u)
    minv := 1 }

/-! ## Construction-time configuration errors
(src/gusto/transport_equation.py, src/gusto/physics.py, src/gusto/state.py)

Fallible constructors become `Except`-valued functions: an `Except.error`
models the Python exception propagating out of `__init__` (so no object
is returned), an `Except.ok` carries the fully constructed result.
-/

/-- The exception classes raised by the modelled constructors. -/
inductive GustoError where
  | notImplementedError
  | runtimeError
  | ioError
  deriving Repr, DecidableEq

/-- `IntegrateByParts` enum (transport_equation.py lines 13-16). -/
inductive IntegrateByParts where
  | NEVER
  | ONCE
  | TWICE
  deriving Repr, DecidableEq

/-- Which branch of `vector_invariant_form` built the returned form. -/
inductive VIFormTag where
  /-- The 3-dimensional curl form (transport_equation.py lines 186-197). -/
  | curlForm3D
  /-- The planar/spherical form with `ibp == ONCE` (lines 209-214). -/
  | planarIbpOnce
  /-- The planar/spherical form of the `else` branch (lines 215-221). -/
  | planarElse
  deriving Repr, DecidableEq

/-- `vector_invariant_form` (transport_equation.py lines 158-225), reduced
to its dimension/ibp control flow: on a 3-dimensional mesh with
`ibp != IntegrateByParts.ONCE` it raises `NotImplementedError` before
building any form; otherwise it returns the assembled form. -/
def vector_invariant_form (dim : ℕ) (ibp : IntegrateByParts) :
    Except GustoError VIFormTag :=
  if dim = 3 then
    if ibp ≠ IntegrateByParts.ONCE then Except.error GustoError.notImplementedError
    else Except.ok VIFormTag.curlForm3D
  else if ibp = IntegrateByParts.ONCE then Except.ok VIFormTag.planarIbpOnce
  else Except.ok VIFormTag.planarElse

/-- Which rainfall-velocity expression `Fallout.__init__` built. -/
inductive FalloutVelocity where
  /-- `moments == 0`: constant terminal velocity 10 m/s. -/
  | constantTerminal
  /-- `moments == 1`: the droplet-distribution expression. -/
  | distributionBased
  deriving Repr, DecidableEq

/-- `Fallout.__init__` (physics.py lines 132-174), reduced to its
`moments` control flow: `moments == 0` and `moments == 1` build a
velocity expression, anything else raises `NotImplementedError`. -/
def fallout_velocity (moments : ℤ) : Except GustoError FalloutVelocity :=
  if moments = 0 then Except.ok FalloutVelocity.constantTerminal
  else if moments = 1 then Except.ok FalloutVelocity.distributionBased
  else Except.error GustoError.notImplementedError

/-- Output configuration of a `State` (the parts of the `output` object
that `State.setup_dump`/`State.dump` consume). -/
structure OutputParameters where
  dirname : String
  dumpfreq : ℕ
  deriving Repr, DecidableEq

/-- The `output` check of `State.__init__` (state.py lines 87-90):
`output is None` raises `RuntimeError`, otherwise the output object is
kept on the constructed state. -/
def state_init_output (output : Option OutputParameters) :
    Except GustoError OutputParameters :=
  match output with
  | none => Except.error GustoError.runtimeError
  | some o => Except.ok o

/-! ## Dump / checkpoint machinery (src/gusto/state.py lines 129-223)

The on-disk artefacts are modelled explicitly: `outputWrites` is the
history of `dumpfile.write` snapshots, `diagnosticData` counts the
diagnostic-series append events, and `chkpt`/`chkptbk` hold the last
written checkpoint (the stored name/value pairs plus the `time`
attribute).  Field values are rationals, so value equality is
bit-identity.
-/

/-- A prognostic or diagnostic field as managed by `FieldCreator`
(state.py lines 30-54): name, pointwise value, and the `dump` and
`pickup` flags. -/
structure ModelField where
  name : String
  value : ℚ
  dump : Bool
  pickup : Bool
  deriving Repr, DecidableEq

/-- The current value of the field called `n` (0 when absent, a case the
theorems never rely on). -/
def fieldValue (fs : List ModelField) (n : String) : ℚ :=
  match fs.find? (fun f => f.name = n) with
  | some f => f.value
  | none => 0

/-- Checkpoint dataset lookup by field name (`DumbCheckpoint` stores one
dataset per function name). -/
def chkLookup : List (String × ℚ) → String → Option ℚ
  | [], _ => none
  | (m, v) :: rest, n => if m = n then some v else chkLookup rest n

/-- The state owned by `State.setup_dump`/`State.dump`. -/
structure DumpState where
  fields : List ModelField
  /-- `self.to_dump`: names of the fields with the `dump` flag. -/
  toDump : List String
  /-- `self.to_pickup`: names of the fields with the `pickup` flag. -/
  toPickup : List String
  /-- Position of the `itertools.count()` counter `self.dumpcount`. -/
  dumpcount : ℕ
  /-- `self.output.dumpfreq`. -/
  dumpfreq : ℕ
  /-- History of `self.dumpfile.write(*self.to_dump)` snapshots. -/
  outputWrites : List (List (String × ℚ))
  /-- Number of diagnostic-series append events. -/
  diagnosticData : ℕ
  /-- Number of `diagnostic_dump` JSON writes. -/
  diagFileWrites : ℕ
  /-- Contents of the `chkpt` file, if it exists. -/
  chkpt : Option (List (String × ℚ) × ℚ)
  /-- Contents of the `chkptbk` backup file, if it exists. -/
  chkptbk : Option (List (String × ℚ) × ℚ)
  deriving Repr, DecidableEq

/-- `State.setup_dump` (state.py lines 129-163), reduced to the parts the
dump loop consumes: fresh dump counter, fresh output/diagnostic
accumulators, and the `to_dump`/`to_pickup` lists computed from the field
flags. -/
def setup_dump (fields : List ModelField) (freq : ℕ) : DumpState :=
  { fields := fields
    toDump := (fields.filter (fun f => f.dump)).map (fun f => f.name)
    toPickup := (fields.filter (fun f => f.pickup)).map (fun f => f.name)
    dumpcount := 0
    dumpfreq := freq
    outputWrites := []
    diagnosticData := 0
    diagFileWrites := 0
    chkpt := none
    chkptbk := none }

/-- The name/value pairs `chk.store(field)` writes for the fields of
`self.to_dump` (the `dumpfile.write` snapshot). -/
def dumpData (s : DumpState) : List (String × ℚ) :=
  s.toDump.map (fun n => (n, fieldValue s.fields n))

/-- The name/value pairs `chk.store(field)` writes for the fields of
`self.to_pickup` (the checkpoint contents). -/
def storePickup (s : DumpState) : List (String × ℚ) :=
  s.toPickup.map (fun n => (n, fieldValue s.fields n))

/-- `chk.load(field)` for every field of `to_pickup`: each field whose
name is in `toPickup` takes the value stored under its name in the
checkpoint data; all other fields keep their current value. -/
def loadFields (toPickup : List String) (data : List (String × ℚ))
    (fs : List ModelField) : List ModelField :=
  fs.map (fun f =>
    if f.name ∈ toPickup then
      match chkLookup data f.name with
      | some v => { f with value := v }
      | none => f
    else f)

/-- `State.dump` (state.py lines 165-223).  With `pickup` true: open the
`chkpt` file (failing if it does not exist), load every `to_pickup`
field, read the stored `time` attribute into `t`, advance the dump
counter, return `t`.  Otherwise: advance the dump counter, and when its
pre-call value is divisible by `dumpfreq`, append the field snapshot to
the output file, append the diagnostic series, write the `chkptbk` and
`chkpt` files (the `to_pickup` values plus `t`), and when
`diagnostic_everydump` also write the diagnostics JSON; return `t`. -/
def dump (s : DumpState) (t : ℚ) (diagnostic_everydump : Bool)
    (pickup : Bool) : Option (DumpState × ℚ) :=
  if pickup then
    match s.chkpt with
    | none => none
    | some (data, tstored) =>
      some ({ s with fields := loadFields s.toPickup data s.fields
                     dumpcount := s.dumpcount + 1 }, tstored)
  else if s.dumpcount % s.dumpfreq = 0 then
    some ({ s with
              dumpcount := s.dumpcount + 1
              outputWrites := s.outputWrites ++ [dumpData s]
              diagnosticData := s.diagnosticData + 1
              chkptbk := some (storePickup s, t)
              chkpt := some (storePickup s, t)
              diagFileWrites :=
                s.diagFileWrites + (if diagnostic_everydump then 1 else 0) }, t)
  else
    some ({ s with dumpcount := s.dumpcount + 1 }, t)

/-- A sequence of `dump` calls, each given as (time argument, pickup
flag), with `diagnostic_everydump` left at its default `False`. -/
def runDumps : DumpState → List (ℚ × Bool) → Option DumpState
  | s, [] => some s
  | s, (t, pk) :: rest =>
    match dump s t false pk with
    | none => none
    | some (s', _) => runDumps s' rest

/-- The number of writing calls in a call sequence, given the counter
value `c` at its start: a call writes iff it is not a pickup and the
counter (which every call advances) is divisible by `freq` at the call. -/
def countWrites (c freq : ℕ) : List (ℚ × Bool) → ℕ
  | [] => 0
  | (_, pk) :: rest =>
    (if pk = false ∧ c % freq = 0 then 1 else 0) + countWrites (c + 1) freq rest

/-! ## Thermodynamic expressions
(src/gusto/forcing.py lines 125-133, src/gusto/expressions.py)

These are closed-form real-valued expressions with real exponents, so they
are embedded over `ℝ` with `Real.rpow`.
-/

/-- The physical parameters consumed by the Exner-pressure expressions. -/
structure AtmosParameters where
  R_d : ℝ
  p_0 : ℝ
  kappa : ℝ

/-- `exner(theta, rho, state)` (forcing.py lines 125-133):
`(R_d/p_0)**(kappa/(1-kappa)) * pow(rho*theta, kappa/(1-kappa))`. -/
noncomputable def exner (theta rho : ℝ) (p : AtmosParameters) : ℝ :=
  (p.R_d / p.p_0) ^ (p.kappa / (1 - p.kappa))
    * (rho * theta) ^ (p.kappa / (1 - p.kappa))

/-- `pi_expr(parameters, rho, theta_v)` (expressions.py lines 25-39):
`(rho * R_d * theta_v / p_0) ** (kappa / (1 - kappa))`. -/
noncomputable def pi_expr (p : AtmosParameters) (rho theta_v : ℝ) : ℝ :=
  (rho * p.R_d * theta_v / p.p_0) ^ (p.kappa / (1 - p.kappa))

/-- `rho_expr(parameters, theta_v, pi)` (expressions.py lines 113-127):
`p_0 * pi ** (1/kappa - 1) / (R_d * theta_v)`. -/
noncomputable def rho_expr (p : AtmosParameters) (theta_v piv : ℝ) : ℝ :=
  p.p_0 * piv ^ (1 / p.kappa - 1) / (p.R_d * theta_v)

/-! Concrete dump states used by the cadence theorems. -/

/-- Two concrete fields, both dumpable, the first one pickup-eligible. -/
def exampleFields : List ModelField :=
  [{ name := "u", value := 5, dump := true, pickup := true },
   { name := "D", value := 7, dump := true, pickup := false }]

/-- A dump state with `dumpfreq = 2` that already owns a checkpoint file,
as left behind by an earlier run (so that a resuming `pickup` call can
open it). -/
def resumeState : DumpState :=
  { setup_dump exampleFields 2 with chkpt := some ([("u", 5)], 0) }

/-- A concrete sponge-free compressible forcing configuration. -/
def simpleCompressible : CompressibleForcing :=
  { pressureL := fun x => x.theta
    geopotential := false
    geopotentialL := fun _ => 0
    gravityL := fun _ => 1
    euler_poincare := true
    epL := fun x => x.u
    coriolisL := none
    muL := none
    minv := 2 }

/-- A concrete sponge-free incompressible forcing configuration. -/
def simpleIncompressible : IncompressibleForcing :=
  { pressureL := fun x => x.p
    gravityL := fun x => x.b
    euler_poincare := false
    epL := fun _ => 0
    coriolisL := none
    muL := none
    minv := 1
    divL := fun x => x.u
    minvP := 1 }

/-- A concrete shallow-water forcing configuration. -/
def simpleShallowWater : ShallowWaterForcing :=
  { mainL := fun x => x.D
    euler_poincare := false
    epL := fun _ => 0
    minv := 1 }

/-! ## Theorems -/

/-- The condensation clip keeps the rate in `[-water_c/dt, water_v/dt]`. -/
theorem lim_cond_rate_bounds (dt water_c water_v raw : ℚ)
    (hdt : 0 < dt) (hc : 0 ≤ water_c) (hv : 0 ≤ water_v) :
    -water_c / dt ≤ lim_cond_rate dt water_c water_v raw ∧
    lim_cond_rate dt water_c water_v raw ≤ water_v / dt := by
  have h1 : -water_c / dt ≤ 0 := by
    apply div_nonpos_of_nonpos_of_nonneg <;> linarith
  have h2 : 0 ≤ water_v / dt := div_nonneg hv hdt.le
  unfold lim_cond_rate
  split_ifs with h
  · exact ⟨le_max_right _ _, max_le (by linarith) (by linarith)⟩
  · exact ⟨le_min (by linarith) (by linarith), min_le_right _ _⟩

/-- The coalescence clip keeps the rate in `[0, water_c/dt]`. -/
theorem lim_coalescence_rate_bounds (dt water_c raw : ℚ)
    (hdt : 0 < dt) (hc : 0 ≤ water_c) :
    0 ≤ lim_coalescence_rate dt water_c raw ∧
    lim_coalescence_rate dt water_c raw ≤ water_c / dt := by
  have h2 : 0 ≤ water_c / dt := div_nonneg hc hdt.le
  unfold lim_coalescence_rate
  split_ifs with h
  · exact ⟨le_refl 0, h2⟩
  · exact ⟨le_min (by linarith) h2, min_le_right _ _⟩

/-- The autoconversion clip keeps the rate in `[-rain/dt, water_c/dt]`. -/
theorem autoconversionLimitRate_bounds (dt rain water_c raw : ℚ)
    (hdt : 0 < dt) (hc : 0 ≤ water_c) (hr : 0 ≤ rain) :
    -rain / dt ≤ autoconversionLimitRate dt rain water_c raw ∧
    autoconversionLimitRate dt rain water_c raw ≤ water_c / dt := by
  have h1 : -rain / dt ≤ 0 := by
    apply div_nonpos_of_nonpos_of_nonneg <;> linarith
  have h2 : 0 ≤ water_c / dt := div_nonneg hc hdt.le
  unfold autoconversionLimitRate
  split_ifs with h
  · have hraw : 0 < raw := by
      by_contra hn
      have : dt * raw ≤ 0 := mul_nonpos_of_nonneg_of_nonpos hdt.le (by linarith)
      linarith
    exact ⟨le_min (by linarith) (by linarith), min_le_right _ _⟩
  · have hraw : raw ≤ 0 := by
      by_contra hn
      exact h (mul_pos hdt (by linarith))
    exact ⟨le_max_right _ _, max_le (by linarith) (by linarith)⟩

/-- Rates within `[-lo/dt, hi/dt]` keep the explicit updates of both
reservoirs non-negative. -/
theorem update_nonneg (dt lo hi r : ℚ) (hdt : 0 < dt)
    (h1 : -lo / dt ≤ r) (h2 : r ≤ hi / dt) :
    0 ≤ hi - dt * r ∧ 0 ≤ lo + dt * r := by
  have ha : r * dt ≤ hi := (le_div_iff₀ hdt).mp h2
  have hb : -lo ≤ r * dt := (div_le_iff₀ hdt).mp h1
  constructor <;> nlinarith

/-- `Condensation.apply` preserves non-negativity of all three moisture
fields for any positive timestep. -/
theorem condensationApply_nonneg (dt dot_r_cond : ℚ) (m : Moisture)
    (hdt : 0 < dt) (hv : 0 ≤ m.water_v) (hc : 0 ≤ m.water_c)
    (hr : 0 ≤ m.rain) :
    0 ≤ (condensationApply dt dot_r_cond m).water_v ∧
    0 ≤ (condensationApply dt dot_r_cond m).water_c ∧
    0 ≤ (condensationApply dt dot_r_cond m).rain := by
  obtain ⟨h1, h2⟩ := lim_cond_rate_bounds dt m.water_c m.water_v dot_r_cond hdt hc hv
  obtain ⟨hu1, hu2⟩ := update_nonneg dt m.water_c m.water_v _ hdt h1 h2
  exact ⟨hu1, hu2, hr⟩

/-- `Coalescence.apply` preserves non-negativity of all three moisture
fields for any positive timestep. -/
theorem coalescenceApply_nonneg (dt rain875 : ℚ) (m : Moisture)
    (hdt : 0 < dt) (hv : 0 ≤ m.water_v) (hc : 0 ≤ m.water_c)
    (hr : 0 ≤ m.rain) :
    0 ≤ (coalescenceApply dt rain875 m).water_v ∧
    0 ≤ (coalescenceApply dt rain875 m).water_c ∧
    0 ≤ (coalescenceApply dt rain875 m).rain := by
  obtain ⟨h1, h2⟩ :=
    lim_coalescence_rate_bounds dt m.water_c
      (coalescenceRawRate m.water_c rain875) hdt hc
  refine ⟨hv, ?_, ?_⟩
  · have := (le_div_iff₀ hdt).mp h2
    simp only [coalescenceApply]
    nlinarith
  · simp only [coalescenceApply]
    nlinarith

/-- `Autoconversion.apply` preserves non-negativity of all three moisture
fields for any positive timestep. -/
theorem autoconversionApply_nonneg (dt : ℚ) (m : Moisture)
    (hdt : 0 < dt) (hv : 0 ≤ m.water_v) (hc : 0 ≤ m.water_c)
    (hr : 0 ≤ m.rain) :
    0 ≤ (autoconversionApply dt m).water_v ∧
    0 ≤ (autoconversionApply dt m).water_c ∧
    0 ≤ (autoconversionApply dt m).rain := by
  obtain ⟨h1, h2⟩ :=
    autoconversionLimitRate_bounds dt m.rain m.water_c
      (autoconversionRawRate m.water_c) hdt hc hr
  obtain ⟨hu1, hu2⟩ := update_nonneg dt m.rain m.water_c _ hdt h1 h2
  exact ⟨hv, hu1, hu2⟩

/-- Claim C2: `Collection.apply` does not preserve non-negativity: its
`limit_rate` interpolator is never invoked, so the raw collection rate is
applied unclipped.  At `dt = 1` with pointwise `water_c = 1`, `rain = 1`
(so `rain ** 0.875 = 1`) and `water_v = 0`, all fields are non-negative
and `dt > 0`, yet the post-`apply` cloud water is `1 - 2.2 = -6/5 < 0`.
(The remaining processes do satisfy the claim; see
`condensationApply_nonneg`, `coalescenceApply_nonneg` and
`autoconversionApply_nonneg`.) -/
theorem C2_collection_negative_water :
    (collectionApply 1 1 { water_v := 0, water_c := 1, rain := 1 }).water_c
        = -6/5 ∧
    (collectionApply 1 1 { water_v := 0, water_c := 1, rain := 1 }).water_c
        < 0 := by
  constructor
  · norm_num [collectionApply, collectionRate, k2]
  · norm_num [collectionApply, collectionRate, k2]

/-- Claim C3, counterexample: the claim states that a negative coalescence
rate is clamped to `-rain/dt`, but `Coalescence.lim_coalescence_rate`
clamps every negative raw rate to `Constant(0.0)`.  At `dt = 1`,
`water_c = 1`, `rain = 1`, raw rate `-1`, the code produces `0` while the
claimed clamp `max(raw, -rain/dt)` produces `-1`. -/
theorem C3_coalescence_clip_counterexample :
    lim_coalescence_rate 1 1 (-1) = 0 ∧
    lim_coalescence_rate 1 1 (-1) ≠ max (-1 : ℚ) (-1 / 1) := by
  constructor
  · norm_num [lim_coalescence_rate]
  · norm_num [lim_coalescence_rate]

/-- Claim C3 (amended): each rate limiter is a three-way conditional.
Condensation: a raw rate below `-water_c/dt` is clamped to exactly
deplete the cloud water, a raw rate above `water_v/dt` is clamped to the
vapour capacity, anything in between passes through.  Autoconversion:
likewise with reservoirs `rain` (below) and `water_c` (above).
Coalescence: a negative raw rate is clamped to zero — not to `-rain/dt` —
and a non-negative raw rate passes through clamped against
`water_c/dt`. -/
theorem C3_limiter_amended (dt water_c water_v rain raw : ℚ)
    (hdt : 0 < dt) (hc : 0 ≤ water_c) (hv : 0 ≤ water_v) (hr : 0 ≤ rain) :
    (raw < -water_c / dt → lim_cond_rate dt water_c water_v raw = -water_c / dt) ∧
    (-water_c / dt ≤ raw → raw ≤ water_v / dt →
      lim_cond_rate dt water_c water_v raw = raw) ∧
    (water_v / dt < raw → lim_cond_rate dt water_c water_v raw = water_v / dt) ∧
    (raw < 0 → lim_coalescence_rate dt water_c raw = 0) ∧
    (0 ≤ raw → raw ≤ water_c / dt → lim_coalescence_rate dt water_c raw = raw) ∧
    (water_c / dt < raw → lim_coalescence_rate dt water_c raw = water_c / dt) ∧
    (raw < -rain / dt → autoconversionLimitRate dt rain water_c raw = -rain / dt) ∧
    (-rain / dt ≤ raw → raw ≤ water_c / dt →
      autoconversionLimitRate dt rain water_c raw = raw) ∧
    (water_c / dt < raw →
      autoconversionLimitRate dt rain water_c raw = water_c / dt) := by
  have hcd : 0 ≤ water_c / dt := div_nonneg hc hdt.le
  have hvd : 0 ≤ water_v / dt := div_nonneg hv hdt.le
  have hrd : 0 ≤ rain / dt := div_nonneg hr hdt.le
  have hcd' : -water_c / dt ≤ 0 := by
    apply div_nonpos_of_nonpos_of_nonneg <;> linarith
  have hrd' : -rain / dt ≤ 0 := by
    apply div_nonpos_of_nonpos_of_nonneg <;> linarith
  refine ⟨?_, ?_, ?_, ?_, ?_, ?_, ?_, ?_, ?_⟩
  · intro h
    rw [lim_cond_rate, if_pos (by linarith)]
    exact max_eq_right h.le
  · intro h1 h2
    rw [lim_cond_rate]
    split_ifs with h
    · exact max_eq_left h1
    · exact min_eq_left h2
  · intro h
    rw [lim_cond_rate, if_neg (by push_neg; linarith)]
    exact min_eq_right h.le
  · intro h
    rw [lim_coalescence_rate, if_pos h]
  · intro h1 h2
    rw [lim_coalescence_rate, if_neg (by push_neg; linarith)]
    exact min_eq_left h2
  · intro h
    rw [lim_coalescence_rate, if_neg (by push_neg; linarith)]
    exact min_eq_right h.le
  · intro h
    have hneg : raw < 0 := by linarith
    rw [autoconversionLimitRate,
      if_neg (by push_neg; nlinarith)]
    exact max_eq_right h.le
  · intro h1 h2
    rw [autoconversionLimitRate]
    split_ifs with h
    · exact min_eq_left h2
    · exact max_eq_left h1
  · intro h
    have hpos : 0 < raw := by linarith
    rw [autoconversionLimitRate, if_pos (mul_pos hdt hpos)]
    exact min_eq_right h.le

/-- Claim C3 amended witness at `dt = 1`, `water_c = 1`, `water_v = 1`,
`rain = 1`, raw rate `2`: the top clamp of each limiter fires. -/
theorem C3_limiter_amended_witness :
    ((0 : ℚ) < 1 ∧ (0 : ℚ) ≤ 1) ∧
    ((1 : ℚ) / 1 < 2 → lim_cond_rate 1 1 1 2 = 1 / 1) ∧
    ((1 : ℚ) / 1 < 2 → lim_coalescence_rate 1 1 2 = 1 / 1) ∧
    ((1 : ℚ) / 1 < 2 → autoconversionLimitRate 1 1 1 2 = 1 / 1) := by
  have h := C3_limiter_amended 1 1 1 1 2 (by norm_num) (by norm_num)
    (by norm_num) (by norm_num)
  exact ⟨⟨by norm_num, by norm_num⟩, h.2.2.1, h.2.2.2.2.2.1, h.2.2.2.2.2.2.2.2⟩

/-- Claim C8: the pointwise update expressions conserve the relevant
moisture sums: `Condensation` leaves `water_v + water_c` unchanged, and
each of `Coalescence`, `Collection` and `Autoconversion` leaves
`water_c + rain` unchanged, because one field subtracts `dt * rate` and
the companion adds the same quantity. -/
theorem C8_moisture_sum_invariant (dt dot_r_cond rain875 : ℚ) (m : Moisture) :
    (condensationApply dt dot_r_cond m).water_v
        + (condensationApply dt dot_r_cond m).water_c
      = m.water_v + m.water_c ∧
    (coalescenceApply dt rain875 m).water_c
        + (coalescenceApply dt rain875 m).rain
      = m.water_c + m.rain ∧
    (collectionApply dt rain875 m).water_c
        + (collectionApply dt rain875 m).rain
      = m.water_c + m.rain ∧
    (autoconversionApply dt m).water_c + (autoconversionApply dt m).rain
      = m.water_c + m.rain := by
  refine ⟨?_, ?_, ?_, ?_⟩ <;>
    simp only [condensationApply, coalescenceApply, collectionApply,
      autoconversionApply] <;>
    ring

/-- Claim C1, counterexample: when a sponge layer is configured (`mu` not
None), the sponge term of `L` is multiplied by `self.mu_scaling`, never by
`self.scaling`, so no assembled forcing increment `F` satisfies
`x_out = x_in + scale * F(x_nl)` across calls.  Concretely, in
`spongeLayerConfig` with `mu_scaling` at its initial value `1`, base
state zero and linearization state `u0 = rho0 = theta0 = 1` (so the
velocity-proportional sponge force is active, with value `1`), the call
`apply(scale, x_in, x_nl, x_out)` yields `x_out.u = -scale - 1`; at
`scale = 0` the sponge force remains, contradicting
`x_out = x_in + 0 * F(x_nl)`. -/
theorem C1_sponge_counterexample :
    ¬ ∃ Fv : ℚ, ∀ s : ℚ,
      (spongeLayerConfig.applyF 1 s ⟨0, 0, 0⟩ ⟨1, 1, 1⟩ none).u = 0 + s * Fv := by
  rintro ⟨Fv, h⟩
  have h0 := h 0
  norm_num [CompressibleForcing.applyF, CompressibleForcing.L,
    spongeLayerConfig] at h0

/-- Claim C1 (amended): for every forcing variant with no sponge layer
configured, every call `apply(scale, x_in, x_nl, x_out)` produces
`x_out = x_in + scale * F(x_nl)`, where `F` is the assembled forcing
increment obtained from the single mass-matrix linear solve at the
linearization point `x_nl`; the scale factor multiplies the forcing term
and never `x_in`.  When a sponge is configured, the sponge contribution
enters scaled by the separate `mu_scaling` factor (set from the
`mu_alpha` argument), not by `scale`. -/
theorem C1_forcing_scale_amended (fc : CompressibleForcing)
    (fi : IncompressibleForcing) (fs : ShallowWaterForcing)
    (muPrev s : ℚ) (xc_in xc_nl : CompressibleX)
    (xi_in xi_nl : IncompressibleX) (xs_in xs_nl : ShallowWaterX)
    (muA muA2 : Option ℚ)
    (hc : fc.muL = none) (hi : fi.muL = none) :
    fc.applyF muPrev s xc_in xc_nl muA =
      { u := xc_in.u + s * fc.F xc_nl
        rho := xc_in.rho
        theta := xc_in.theta } ∧
    fi.applyF muPrev s xi_in xi_nl muA2 false =
      { u := xi_in.u + s * fi.F xi_nl
        p := xi_in.p
        b := xi_in.b } ∧
    fs.applyF s xs_in xs_nl =
      { u := xs_in.u + s * fs.F xs_nl
        D := xs_in.D } ∧
    (∀ (g : CompressibleForcing) (sponge : CompressibleX → ℚ) (muAlpha : ℚ),
      g.muL = some sponge →
      g.applyF muPrev s xc_in xc_nl (some muAlpha) =
        { u := xc_in.u + s * g.F xc_nl - muAlpha * (g.minv * sponge xc_nl)
          rho := xc_in.rho
          theta := xc_in.theta }) := by
  refine ⟨?_, ?_, ?_, ?_⟩
  · simp only [CompressibleForcing.applyF, CompressibleForcing.L,
      CompressibleForcing.F, hc, CompressibleX.mk.injEq, and_true]
    split_ifs <;> rcases fc.coriolisL with _ | c <;> ring
  · simp only [IncompressibleForcing.applyF, IncompressibleForcing.L,
      IncompressibleForcing.F, hi, Bool.false_eq_true, if_false,
      IncompressibleX.mk.injEq, and_true]
    split_ifs <;> rcases fi.coriolisL with _ | c <;> ring
  · simp only [ShallowWaterForcing.applyF, ShallowWaterForcing.F,
      ShallowWaterX.mk.injEq, and_true]
    ring
  · intro g sponge muAlpha hg
    simp only [CompressibleForcing.applyF, CompressibleForcing.L,
      CompressibleForcing.F, hg, Option.getD_some, CompressibleX.mk.injEq,
      and_true]
    split_ifs <;> rcases g.coriolisL with _ | c <;> ring

/-- Claim C1 amended witness: the three concrete sponge-free
configurations at `scale = 3`, evaluated at concrete states. -/
theorem C1_forcing_scale_amended_witness :
    (simpleCompressible.muL = none ∧ simpleIncompressible.muL = none) ∧
    simpleCompressible.applyF 1 3 ⟨1, 2, 4⟩ ⟨5, 6, 7⟩ none =
      { u := (⟨1, 2, 4⟩ : CompressibleX).u
          + 3 * simpleCompressible.F ⟨5, 6, 7⟩
        rho := (⟨1, 2, 4⟩ : CompressibleX).rho
        theta := (⟨1, 2, 4⟩ : CompressibleX).theta } := by
  have h := C1_forcing_scale_amended simpleCompressible simpleIncompressible
    simpleShallowWater 1 3 ⟨1, 2, 4⟩ ⟨5, 6, 7⟩ ⟨1, 2, 4⟩ ⟨5, 6, 7⟩ ⟨1, 2⟩ ⟨5, 6⟩
    none none rfl rfl
  exact ⟨⟨rfl, rfl⟩, h.1⟩

/-- Claim C4: every `Forcing.apply` call mutates only the velocity
component of `result_state` (and, for the incompressible variant with the
incompressibility correction requested, the pressure component); all
other components equal the corresponding component of `base_state`. -/
theorem C4_frame_effect (fc : CompressibleForcing)
    (fi : IncompressibleForcing) (fs : ShallowWaterForcing)
    (muPrev s : ℚ) (xc_in xc_nl : CompressibleX)
    (xi_in xi_nl : IncompressibleX) (xs_in xs_nl : ShallowWaterX)
    (muA muA2 : Option ℚ) (incompressible : Bool) :
    (fc.applyF muPrev s xc_in xc_nl muA).rho = xc_in.rho ∧
    (fc.applyF muPrev s xc_in xc_nl muA).theta = xc_in.theta ∧
    (fi.applyF muPrev s xi_in xi_nl muA2 incompressible).b = xi_in.b ∧
    (fi.applyF muPrev s xi_in xi_nl muA2 false).p = xi_in.p ∧
    (fs.applyF s xs_in xs_nl).D = xs_in.D := by
  refine ⟨rfl, rfl, ?_, rfl, rfl⟩
  cases incompressible <;> rfl

/-- Claim C5: every unsupported configuration combination is rejected at
construction time with the documented exception, and no partially
constructed object is returned (the `Except` constructors return either
an error or a fully built value): the vector-invariant form on a
3-dimensional mesh errors exactly when the integration-by-parts depth is
not `ONCE`, `Fallout` errors exactly when `moments` is neither 0 nor 1,
and `State.__init__` errors exactly when `output` is None. -/
theorem C5_construction_errors (dim : ℕ) (ibp : IntegrateByParts)
    (moments : ℤ) (output : Option OutputParameters) :
    (vector_invariant_form dim ibp
        = Except.error GustoError.notImplementedError
      ↔ dim = 3 ∧ ibp ≠ IntegrateByParts.ONCE) ∧
    (fallout_velocity moments = Except.error GustoError.notImplementedError
      ↔ moments ≠ 0 ∧ moments ≠ 1) ∧
    (state_init_output output = Except.error GustoError.runtimeError
      ↔ output = none) := by
  refine ⟨?_, ?_, ?_⟩
  · unfold vector_invariant_form
    split_ifs with h1 h2 h3 <;> simp_all
  · unfold fallout_velocity
    split_ifs with h1 h2 <;> simp_all
  · cases output <;> simp [state_init_output]

/-- Looking a name up in the dataset list written for the names `l` from
the field values `g` returns exactly `g n` for any `n ∈ l`. -/
theorem chkLookup_map (l : List String) (g : String → ℚ) (n : String)
    (h : n ∈ l) :
    chkLookup (l.map fun m => (m, g m)) n = some (g n) := by
  induction l with
  | nil => cases h
  | cons m rest ih =>
    simp only [List.map_cons, chkLookup]
    rcases List.mem_cons.mp h with h1 | h2
    · rw [if_pos h1.symm, h1]
    · split_ifs with he
      · rw [he]
      · exact ih h2

/-- Loading from the checkpoint written by `storePickup s` overwrites
exactly the `toPickup` fields with the values `s.fields` had when the
checkpoint was stored. -/
theorem loadFields_storePickup (s : DumpState) (fs₂ : List ModelField) :
    loadFields s.toPickup (storePickup s) fs₂ =
      fs₂.map (fun f =>
        if f.name ∈ s.toPickup then
          { f with value := fieldValue s.fields f.name }
        else f) := by
  unfold loadFields
  induction fs₂ with
  | nil => rfl
  | cons f rest ih =>
    simp only [List.map_cons, List.cons.injEq]
    refine ⟨?_, ih⟩
    by_cases h : f.name ∈ s.toPickup
    · rw [if_pos h, if_pos h, storePickup,
        chkLookup_map s.toPickup (fun n => fieldValue s.fields n) f.name h]
    · rw [if_neg h, if_neg h]

/-- Claim C6: a `dump` call that writes a checkpoint stores every
`to_pickup` field together with the simulation time `t`; a subsequent
`dump(pickup=True)` — after the fields have been mutated arbitrarily to
`fs₂` — restores exactly those fields to the bit-identical stored values
(leaving the other fields untouched) and returns exactly the stored
simulation time. -/
theorem C6_checkpoint_roundtrip (s : DumpState) (t t₂ : ℚ)
    (fs₂ : List ModelField) (ed ed₂ : Bool)
    (hwrite : s.dumpcount % s.dumpfreq = 0) :
    ∃ s₁ : DumpState,
      dump s t ed false = some (s₁, t) ∧
      dump { s₁ with fields := fs₂ } t₂ ed₂ true =
        some ({ s₁ with
                  fields := fs₂.map (fun f =>
                    if f.name ∈ s.toPickup then
                      { f with value := fieldValue s.fields f.name }
                    else f)
                  dumpcount := s₁.dumpcount + 1 }, t) := by
  refine ⟨{ s with
              dumpcount := s.dumpcount + 1
              outputWrites := s.outputWrites ++ [dumpData s]
              diagnosticData := s.diagnosticData + 1
              chkptbk := some (storePickup s, t)
              chkpt := some (storePickup s, t)
              diagFileWrites :=
                s.diagFileWrites + (if ed then 1 else 0) }, ?_, ?_⟩
  · unfold dump
    rw [if_neg (by simp), if_pos hwrite]
  · simp only [dump, if_pos, loadFields_storePickup s fs₂]

/-- Claim C6 witness: a concrete dump at `dumpfreq = 1`, time `3`,
followed by a pickup after the fields were overwritten. -/
theorem C6_checkpoint_roundtrip_witness :
    (setup_dump exampleFields 1).dumpcount % (setup_dump exampleFields 1).dumpfreq = 0 ∧
    ∃ s₁ : DumpState,
      dump (setup_dump exampleFields 1) 3 false false = some (s₁, 3) ∧
      dump { s₁ with fields :=
              [{ name := "u", value := 100, dump := true, pickup := true },
               { name := "D", value := 200, dump := true, pickup := false }] }
          9 false true =
        some ({ s₁ with
                  fields :=
                    [{ name := "u", value := 100, dump := true,
                       pickup := true },
                     { name := "D", value := 200, dump := true,
                       pickup := false }].map (fun f =>
                      if f.name ∈ (setup_dump exampleFields 1).toPickup then
                        { f with value := fieldValue exampleFields f.name }
                      else f)
                  dumpcount := s₁.dumpcount + 1 }, 3) :=
  ⟨rfl, C6_checkpoint_roundtrip (setup_dump exampleFields 1) 3 9
    [{ name := "u", value := 100, dump := true, pickup := true },
     { name := "D", value := 200, dump := true, pickup := false }]
    false false rfl⟩

/-- Claim C7, counterexample: with `dumpfreq = 2`, resume with one
pickup call and then make the 0-th `pickup=False` call.  The claim
(`k mod dumpfreq = 0` with `k` counting only `pickup=False` calls, here
`k = 0`) predicts that this call writes field output; the code does not
write, because the pickup call already advanced the shared dump counter
to 1 and `1 % 2 ≠ 0`.  Both calls do advance the counter by one each. -/
theorem C7_pickup_shifts_cadence :
    0 % resumeState.dumpfreq = 0 ∧
    ∃ s' : DumpState,
      runDumps resumeState [(0, true), (1, false)] = some s' ∧
      s'.outputWrites.length = 0 ∧ s'.dumpcount = 2 :=
  ⟨rfl, _, rfl, rfl, rfl⟩

/-- Claim C7 (amended): over any sequence of `dump` calls, every call —
pickup or not — advances the internal dump counter by exactly one, and a
`pickup=False` call writes field output and appends diagnostic data if
and only if the running counter value at that call (which counts all
previous `dump` calls of either kind) is divisible by `dumpfreq`.
Moreover, per call: a `pickup=False` call at a divisible counter writes
the field-output snapshot, the diagnostic data and both checkpoint files
(`chkpt` and `chkptbk`, holding the `to_pickup` values and `t`), while at
a non-divisible counter it leaves the on-disk output, diagnostic data and
checkpoints all unchanged, advancing only the counter. -/
theorem C7_cadence_amended (calls : List (ℚ × Bool)) (s s' : DumpState)
    (h : runDumps s calls = some s') :
    (s'.dumpcount = s.dumpcount + calls.length ∧
     s'.outputWrites.length
       = s.outputWrites.length + countWrites s.dumpcount s.dumpfreq calls ∧
     s'.diagnosticData
       = s.diagnosticData + countWrites s.dumpcount s.dumpfreq calls) ∧
    (∀ (s₂ : DumpState) (t : ℚ) (ed : Bool),
      (s₂.dumpcount % s₂.dumpfreq = 0 →
        dump s₂ t ed false =
          some ({ s₂ with
                    dumpcount := s₂.dumpcount + 1
                    outputWrites := s₂.outputWrites ++ [dumpData s₂]
                    diagnosticData := s₂.diagnosticData + 1
                    chkptbk := some (storePickup s₂, t)
                    chkpt := some (storePickup s₂, t)
                    diagFileWrites :=
                      s₂.diagFileWrites + (if ed then 1 else 0) }, t)) ∧
      (s₂.dumpcount % s₂.dumpfreq ≠ 0 →
        dump s₂ t ed false =
          some ({ s₂ with dumpcount := s₂.dumpcount + 1 }, t))) := by
  refine ⟨?_, ?_⟩
  case refine_2 =>
    intro s₂ t ed
    constructor
    · intro hc
      unfold dump
      rw [if_neg (by simp), if_pos hc]
    · intro hc
      unfold dump
      rw [if_neg (by simp), if_neg hc]
  induction calls generalizing s with
  | nil =>
    simp only [runDumps, Option.some.injEq] at h
    subst h
    simp [countWrites]
  | cons c rest ih =>
    obtain ⟨t, pk⟩ := c
    simp only [runDumps] at h
    cases pk with
    | true =>
      simp only [dump] at h
      cases hchk : s.chkpt with
      | none => rw [hchk] at h; simp at h
      | some p =>
        obtain ⟨data, tstored⟩ := p
        rw [hchk] at h
        simp only at h
        obtain ⟨h1, h2, h3⟩ := ih _ h
        refine ⟨?_, ?_, ?_⟩ <;> simp [h1, h2, h3, countWrites] <;> omega
    | false =>
      simp only [dump, if_neg (by simp : ¬False)] at h
      by_cases hc : s.dumpcount % s.dumpfreq = 0
      · rw [if_pos hc] at h
        obtain ⟨h1, h2, h3⟩ := ih _ h
        refine ⟨?_, ?_, ?_⟩ <;> simp [h1, h2, h3, countWrites, hc] <;> omega
      · rw [if_neg hc] at h
        obtain ⟨h1, h2, h3⟩ := ih _ h
        refine ⟨?_, ?_, ?_⟩ <;> simp [h1, h2, h3, countWrites, hc] <;> omega

/-- Claim C7 amended witness: the concrete resume sequence — one pickup
call followed by two `pickup=False` calls at `dumpfreq = 2`: three calls
advance the counter by three, and exactly one of them (the second
`pickup=False` call, at counter value 2) writes.  A direct `pickup=False`
call on `resumeState` itself (counter 0, divisible by 2) writes the field
output, the diagnostic data and both checkpoint files. -/
theorem C7_cadence_amended_witness :
    ∃ s' : DumpState,
      runDumps resumeState [(0, true), (1, false), (2, false)] = some s' ∧
      s'.dumpcount = resumeState.dumpcount + 3 ∧
      s'.outputWrites.length
        = resumeState.outputWrites.length
          + countWrites resumeState.dumpcount resumeState.dumpfreq
              [(0, true), (1, false), (2, false)] ∧
      s'.diagnosticData
        = resumeState.diagnosticData
          + countWrites resumeState.dumpcount resumeState.dumpfreq
              [(0, true), (1, false), (2, false)] ∧
      dump resumeState 4 false false =
        some ({ resumeState with
                  dumpcount := resumeState.dumpcount + 1
                  outputWrites :=
                    resumeState.outputWrites ++ [dumpData resumeState]
                  diagnosticData := resumeState.diagnosticData + 1
                  chkptbk := some (storePickup resumeState, 4)
                  chkpt := some (storePickup resumeState, 4)
                  diagFileWrites :=
                    resumeState.diagFileWrites + (if false then 1 else 0) },
              4) := by
  have h := C7_cadence_amended [(0, true), (1, false), (2, false)]
    resumeState _ rfl
  exact ⟨_, rfl, h.1.1, h.1.2.1, h.1.2.2,
    (h.2 resumeState 4 false).1 rfl⟩

/-- Claim C9: the two independent Exner-pressure definitions agree: for
positive `rho`, `theta` and positive parameters with `kappa ≠ 1`,
`exner(theta, rho, state)` of forcing.py equals
`pi_expr(parameters, rho, theta)` of expressions.py. -/
theorem C9_exner_pi_equal (p : AtmosParameters) (rho theta : ℝ)
    (hrho : 0 < rho) (hth : 0 < theta) (hR : 0 < p.R_d) (hp0 : 0 < p.p_0)
    (hk : 0 < p.kappa) (hk1 : p.kappa ≠ 1) :
    exner theta rho p = pi_expr p rho theta := by
  unfold exner pi_expr
  rw [show rho * p.R_d * theta / p.p_0 = p.R_d / p.p_0 * (rho * theta) by
    field_simp; ring]
  exact (Real.mul_rpow (by positivity) (by positivity)).symm

/-- Claim C9 witness at `rho = 2`, `theta = 3`, `R_d = 1`, `p_0 = 5`,
`kappa = 1/2`. -/
theorem C9_exner_pi_equal_witness :
    ((0 : ℝ) < 2 ∧ (0 : ℝ) < 3 ∧ (0 : ℝ) < 1 ∧ (0 : ℝ) < 5 ∧
      (0 : ℝ) < 1 / 2 ∧ (1 / 2 : ℝ) ≠ 1) ∧
    exner 3 2 { R_d := 1, p_0 := 5, kappa := 1 / 2 } =
      pi_expr { R_d := 1, p_0 := 5, kappa := 1 / 2 } 2 3 :=
  ⟨⟨by norm_num, by norm_num, by norm_num, by norm_num, by norm_num,
      by norm_num⟩,
    C9_exner_pi_equal { R_d := 1, p_0 := 5, kappa := 1 / 2 } 2 3
      (by norm_num) (by norm_num) (by norm_num) (by norm_num) (by norm_num)
      (by norm_num)⟩

/-- Claim C10: recovering the dry density from an Exner pressure via
`rho_expr` and recomputing the Exner pressure via `pi_expr` is the
identity, for positive `theta_v`, `pi` and positive parameters with
`kappa ≠ 1`. -/
theorem C10_pi_rho_roundtrip (p : AtmosParameters) (theta_v piv : ℝ)
    (hth : 0 < theta_v) (hpi : 0 < piv) (hR : 0 < p.R_d) (hp0 : 0 < p.p_0)
    (hk : 0 < p.kappa) (hk1 : p.kappa ≠ 1) :
    pi_expr p (rho_expr p theta_v piv) theta_v = piv := by
  unfold pi_expr rho_expr
  rw [show p.p_0 * piv ^ (1 / p.kappa - 1) / (p.R_d * theta_v) * p.R_d
        * theta_v / p.p_0 = piv ^ (1 / p.kappa - 1) by
    field_simp
    ring]
  rw [← Real.rpow_mul hpi.le]
  rw [show (1 / p.kappa - 1) * (p.kappa / (1 - p.kappa)) = 1 by
    have h1 : p.kappa ≠ 0 := ne_of_gt hk
    have h2 : 1 - p.kappa ≠ 0 := sub_ne_zero.mpr (Ne.symm hk1)
    field_simp]
  exact Real.rpow_one piv

/-- Claim C10 witness at `theta_v = 3`, `pi = 2`, `R_d = 1`, `p_0 = 5`,
`kappa = 1/2`. -/
theorem C10_pi_rho_roundtrip_witness :
    ((0 : ℝ) < 3 ∧ (0 : ℝ) < 2 ∧ (0 : ℝ) < 1 ∧ (0 : ℝ) < 5 ∧
      (0 : ℝ) < 1 / 2 ∧ (1 / 2 : ℝ) ≠ 1) ∧
    pi_expr { R_d := 1, p_0 := 5, kappa := 1 / 2 }
      (rho_expr { R_d := 1, p_0 := 5, kappa := 1 / 2 } 3 2) 3 = 2 :=
  ⟨⟨by norm_num, by norm_num, by norm_num, by norm_num, by norm_num,
      by norm_num⟩,
    C10_pi_rho_roundtrip { R_d := 1, p_0 := 5, kappa := 1 / 2 } 3 2
      (by norm_num) (by norm_num) (by norm_num) (by norm_num) (by norm_num)
      (by norm_num)⟩

end Gusto
